import Mathlib

/-!
Verification of the aerolake pipeline core against its source.

The definitions below are a shallow embedding of:
  * `pipeline-manager/pipeline_controller.py` (PipelineController),
  * `databricks-uploader/sensor_db_reader.py` (SensorDatabaseReader),
  * `databricks-uploader/tests/test_phase_logic_simple.py` (MockUploader
    phase routing and default validation),
  * `databricks-uploader/pipeline_metadata.py` (transformation hash).

Modelling conventions:
  * The SQLite `pipeline_config` table is a list of rows; the engine-level
    write lock and transactions are reflected by making each committed
    transaction a single atomic state transition, and each failed or
    rolled-back attempt the identity on the state.
  * The outcome of each connection/transaction attempt (success, a
    lock-contention `sqlite3.OperationalError` whose message contains
    "locked", or any other error) is an input to the model, given as a
    function from the attempt index to an outcome.
  * Python floats are IEEE doubles: finite values are modelled as exact
    rationals (every finite double is one, and the decimal constants
    -20, 60, 0, 100, 0.1 and 1013.25 compared against are exactly
    representable), and NaN and the infinities are explicit values with
    IEEE comparison semantics (every comparison against NaN is false).
  * `time.sleep` calls are observed by recording the slept durations
    (in seconds, as rationals) in the order they happen.
-/

/-- One row of the `pipeline_config` table (see `_init_database` in
`pipeline_controller.py`).  `id` is the INTEGER PRIMARY KEY rowid;
`is_active` is the INTEGER flag, modelled as `Bool`. -/
structure ConfigRow where
  id : Nat
  pipeline_type : String
  created_at : String
  created_by : Option String
  reason : Option String
  is_active : Bool

/-- The `pipeline_config` table: the list of its rows in rowid order. -/
abbrev DBState := List ConfigRow

/-- Number of rows with `is_active = 1` (`SELECT COUNT(*) ... WHERE is_active = 1`). -/
def countActive (st : DBState) : Nat :=
  (st.filter (fun r => r.is_active)).length

/-- The next INTEGER PRIMARY KEY SQLite assigns: one more than the largest rowid. -/
def nextId (st : DBState) : Nat :=
  (st.map (fun r => r.id)).foldr max 0 + 1

/-- Model of `PipelineController._init_database`, restricted to its data effect on
`pipeline_config`: DDL is idempotent (CREATE TABLE IF NOT EXISTS etc.), and
if no row has `is_active = 1` a default row
`(raw, now, system, "Initial configuration", 1)` is inserted. -/
def init_database (now : String) (st : DBState) : DBState :=
  if countActive st = 0 then
    st ++ [⟨nextId st, "raw", now, some "system", some "Initial configuration", true⟩]
  else
    st

/-- Python truthiness of `created_by or "unknown"` in `set_pipeline`:
`None` and the empty string both fall back to `"unknown"`. -/
def pyOrUnknown (s : Option String) : String :=
  match s with
  | none => "unknown"
  | some s => if s.isEmpty then "unknown" else s

/-- The transaction body of `set_pipeline` (BEGIN IMMEDIATE), committed:
`UPDATE pipeline_config SET is_active = 0 WHERE is_active = 1` followed by
the INSERT of the new active row.  One atomic state transition. -/
def set_pipeline_tx (pt : String) (cb reason : Option String) (now : String)
    (st : DBState) : DBState :=
  (st.map (fun r => if r.is_active then { r with is_active := false } else r))
    ++ [⟨nextId st, pt, now, some (pyOrUnknown cb), reason, true⟩]

/-- Outcome of one connection/transaction attempt, an input to the model:
`ok` (the transaction commits), `lockedErr` (a `sqlite3.OperationalError`
whose message contains "locked"), `otherErr` (any other raised error,
including non-locked OperationalErrors; the rollback leaves the state
unchanged). -/
inductive Attempt where
  | ok
  | lockedErr
  | otherErr
deriving DecidableEq

/-- Errors surfaced by the controller, named after the taxonomy of the spec:
`storeUnavailable` is the lock-contention error re-raised once the retry
budget is exhausted; `otherError` is any other propagated exception. -/
inductive PCError where
  | storeUnavailable
  | otherError
deriving DecidableEq

/-- The bound `max_retries = 5` in `set_pipeline` and `get_current_pipeline`. -/
def maxRetries : Nat := 5

/-- The base `retry_delay = 0.1` seconds. -/
def retryDelay : Rat := 1 / 10

/-- The retry loop of `set_pipeline`, from attempt index `attempt` on.
Returns the call result, the final table state, and the list of
`time.sleep` durations performed (`retry_delay * (2 ** attempt)`).
A locked error retries only while `attempt < max_retries - 1`
(written `attempt + 1 < maxRetries`); on the last attempt the locked
error is re-raised.  Any other error propagates immediately. -/
def set_pipeline_from (eff : Nat → Attempt) (pt : String) (cb reason : Option String)
    (now : String) (attempt : Nat) (st : DBState) :
    Except PCError Unit × DBState × List Rat :=
  match eff attempt with
  | .ok => (.ok (), set_pipeline_tx pt cb reason now st, [])
  | .lockedErr =>
    if h : attempt + 1 < maxRetries then
      let r := set_pipeline_from eff pt cb reason now (attempt + 1) st
      (r.1, r.2.1, retryDelay * 2 ^ attempt :: r.2.2)
    else
      (.error .storeUnavailable, st, [])
  | .otherErr => (.error .otherError, st, [])
termination_by maxRetries - attempt
decreasing_by simp_wf; omega

/-- Model of `PipelineController.set_pipeline`: the retry loop started at attempt 0. -/
def set_pipeline (eff : Nat → Attempt) (pt : String) (cb reason : Option String)
    (now : String) (st : DBState) : Except PCError Unit × DBState × List Rat :=
  set_pipeline_from eff pt cb reason now 0 st

/-- One `set_pipeline` call together with the attempt outcomes its
connection attempts meet. -/
structure SetCall where
  eff : Nat → Attempt
  pt : String
  cb : Option String
  reason : Option String
  now : String

/-- The table state left behind by one `set_pipeline` call (whether it
succeeded or failed). -/
def applySetCall (st : DBState) (c : SetCall) : DBState :=
  (set_pipeline c.eff c.pt c.cb c.reason c.now st).2.1

/-- The result dict of `get_current_pipeline`. -/
structure CurrentConfig where
  pipeline_type : String
  created_at : String
  created_by : Option String
  reason : Option String
deriving DecidableEq

/-- The default in-memory configuration `get_current_pipeline` returns when
no active row exists (it is NOT inserted into the table). -/
def defaultCurrentConfig (now : String) : CurrentConfig :=
  ⟨"raw", now, some "system", some "Default configuration"⟩

/-- The query `SELECT pipeline_type, created_at, created_by, reason FROM pipeline_config
WHERE is_active = 1 ORDER BY id DESC LIMIT 1`: among the active rows, the one
with the largest rowid (`id` is the unique INTEGER PRIMARY KEY). -/
def selectCurrent (st : DBState) : Option ConfigRow :=
  (st.filter (fun r => r.is_active)).foldl
    (fun acc r =>
      match acc with
      | none => some r
      | some m => if m.id < r.id then some r else some m)
    none

/-- Projection of a row to the dict `get_current_pipeline` builds from it. -/
def rowToConfig (r : ConfigRow) : CurrentConfig :=
  ⟨r.pipeline_type, r.created_at, r.created_by, r.reason⟩

/-- The retry loop of `get_current_pipeline`, from attempt index `attempt`.
The connection only runs a SELECT, so every branch returns the table state
it was given.  Retry policy is identical to `set_pipeline`; the locked
error is re-raised once the budget is exhausted. -/
def get_current_from (eff : Nat → Attempt) (now : String) (st : DBState)
    (attempt : Nat) : Except PCError CurrentConfig × DBState :=
  match eff attempt with
  | .ok =>
    (match selectCurrent st with
     | some r => (.ok (rowToConfig r), st)
     | none => (.ok (defaultCurrentConfig now), st))
  | .lockedErr =>
    if h : attempt + 1 < maxRetries then
      get_current_from eff now st (attempt + 1)
    else
      (.error .storeUnavailable, st)
  | .otherErr => (.error .otherError, st)
termination_by maxRetries - attempt
decreasing_by simp_wf; omega

/-- Model of `PipelineController.get_current_pipeline`. -/
def get_current_pipeline (eff : Nat → Attempt) (now : String) (st : DBState) :
    Except PCError CurrentConfig × DBState :=
  get_current_from eff now st 0

/-- Lowercasing used by `PipelineController.__init__`
(`"sensor_data" in str(config_db_path).lower()`; ASCII range, which is all
the guard needs). -/
def pyLower (s : String) : String := String.mk (s.toList.map Char.toLower)

/-- Substring test of Python (`needle in hay`) on character lists. -/
def listContainsSub (hay needle : List Char) : Bool :=
  needle.isPrefixOf hay ||
    match hay with
    | [] => false
    | _ :: t => listContainsSub t needle

/-- Substring test of Python (`needle in hay`) on strings. -/
def strContainsSub (hay needle : String) : Bool :=
  listContainsSub hay.toList needle.toList

/-- Construction-time errors, named after the taxonomy of the spec:
`configurationError` is the `ValueError` guarding against pointing the
state store at the sensor database; `notFound` is the `FileNotFoundError`
for a missing sensor database file. -/
inductive InitError where
  | configurationError
  | notFound
deriving DecidableEq

/-- Model of `PipelineController.__init__` followed by `_init_database`: the
`"sensor_data"`-substring guard runs before any database access, so on the
error path the table state is never produced or touched. -/
def pipeline_controller_construct (config_db_path now : String) (st : DBState) :
    Except InitError DBState :=
  if strContainsSub (pyLower config_db_path) "sensor_data" then
    .error .configurationError
  else
    .ok (init_database now st)

/-- Model of `SensorDatabaseReader.__init__` with an already-resolved path: its only
check is that the file exists (`FileNotFoundError` otherwise); on success it
builds the read-only URI connection string.  There is no check that the
path is not the pipeline-state database. -/
def sensor_reader_construct (db_path : String) (pathExists : Bool) :
    Except InitError String :=
  if !pathExists then
    .error .notFound
  else
    .ok ("file:" ++ db_path ++ "?mode=ro")

/-- ASCII whitespace stripped by the Python `str.strip()` (the queries at
issue are ASCII; Unicode spaces behave the same way for them). -/
def isPyWS (c : Char) : Bool :=
  c = ' ' || c = '\t' || c = '\n' || c = '\r' || c.toNat = 11 || c.toNat = 12

/-- Python `str.strip()`: drop leading and trailing whitespace. -/
def pyStrip (s : String) : String :=
  String.mk (((s.toList.dropWhile isPyWS).reverse.dropWhile isPyWS).reverse)

/-- Python `str.upper()` (ASCII range; `SELECT` detection only needs ASCII). -/
def pyUpper (s : String) : String :=
  String.mk (s.toList.map Char.toUpper)

/-- Prefix test on character lists (Python `str.startswith`). -/
def listPrefixOf : List Char → List Char → Bool
  | [], _ => true
  | _ :: _, [] => false
  | a :: as, b :: bs => a == b && listPrefixOf as bs

/-- Python `s.startswith(pre)`. -/
def pyStartsWith (s pre : String) : Bool := listPrefixOf pre.toList s.toList

/-- The guard of `read_with_query`:
`query.strip().upper().startswith("SELECT")`. -/
def readWithQueryAllows (query : String) : Bool :=
  pyStartsWith (pyUpper (pyStrip query)) "SELECT"

/-- Errors raised by `SensorDatabaseReader`, named after the taxonomy of the spec: `validationError` is the `ValueError` raised by `read_with_query`
for a non-SELECT statement. -/
inductive ReadErr where
  | validationError
deriving DecidableEq

/-- A row returned by a query, as the dict the reader builds from it. -/
abbrev Row := List (String × String)

/-- Model of `SensorDatabaseReader.read_with_query`: the SELECT-prefix guard runs
before any connection or execution, so on the rejection path the result is
independent of the database (`exec`, the evaluation of the query by the engine,
is never consulted). -/
def read_with_query (query : String) (exec : String → List Row) :
    Except ReadErr (List Row) :=
  if !readWithQueryAllows query then
    .error .validationError
  else
    .ok (exec query)

/-- The reading the spec gives of the guard (for comparison with the code): the
top-level KEYWORD of the query — the stripped, uppercased text up to the
first whitespace. -/
def specLeadingKeyword (query : String) : String :=
  String.mk ((pyUpper (pyStrip query)).toList.takeWhile (fun c => !isPyWS c))

/-- Python truthiness of an `Optional[str]` clause argument in
`read_sensor_data` (`if where_clause:` / `if order_by:`). -/
def pyTruthyStr (s : Option String) : Bool :=
  match s with
  | none => false
  | some s => !s.isEmpty

/-- Python truthiness of an `Optional[int]` argument in `read_sensor_data`
(`if limit:` / `if offset:`): `None` and `0` are both falsy.  The code only
ever passes non-negative values, so `Nat` suffices. -/
def pyTruthyNat (n : Option Nat) : Bool :=
  match n with
  | none => false
  | some n => n != 0

/-- The LIMIT fragment appended by `read_sensor_data` (empty when `limit`
is falsy). -/
def limitClause (limit : Option Nat) : String :=
  match limit with
  | some n => if n != 0 then " LIMIT " ++ toString n else ""
  | none => ""

/-- The OFFSET fragment appended by `read_sensor_data` (empty when
`offset` is falsy). -/
def offsetClause (offset : Option Nat) : String :=
  match offset with
  | some n => if n != 0 then " OFFSET " ++ toString n else ""
  | none => ""

/-- The query string built by `SensorDatabaseReader.read_sensor_data`. -/
def buildReadQuery (table_name : String) (where_clause order_by : Option String)
    (limit offset : Option Nat) : String :=
  "SELECT * FROM " ++ table_name
    ++ (if pyTruthyStr where_clause then " WHERE " ++ where_clause.getD "" else "")
    ++ (if pyTruthyStr order_by then " ORDER BY " ++ order_by.getD ""
        else " ORDER BY timestamp DESC")
    ++ limitClause limit
    ++ offsetClause offset

/-- Row-level semantics of `read_sensor_data`: `rows` is the full result of
the filtered and ordered SELECT over the table (a fixed function of the table,
WHERE and ORDER BY arguments); SQLite applies OFFSET before LIMIT, and each
clause is only present when its argument is truthy.  (In every modelled
call an OFFSET is only ever issued together with a LIMIT.) -/
def read_sensor_data (rows : List Row) (limit offset : Option Nat) : List Row :=
  let afterOffset := if pyTruthyNat offset then rows.drop (offset.getD 0) else rows
  if pyTruthyNat limit then afterOffset.take (limit.getD 0) else afterOffset

/-- The loop of `stream_sensor_data`, fuelled: from `offset`, fetch
`read_sensor_data(..., limit := batch_size, offset := offset)`; stop on an
empty batch; yield the batch; stop if it is short; else advance the offset
by `batch_size`.  `fuel` is a termination device only: for any positive
batch size, `rows.length + 1` steps are more than the loop can take. -/
def stream_go (rows : List Row) (batch_size : Nat) (offset : Nat) :
    Nat → List (List Row)
  | 0 => []
  | fuel + 1 =>
    let batch := read_sensor_data rows (some batch_size) (some offset)
    if batch.isEmpty then []
    else if batch.length < batch_size then [batch]
    else batch :: stream_go rows batch_size (offset + batch_size) fuel

/-- Model of `SensorDatabaseReader.stream_sensor_data` over the same table, WHERE
and ORDER BY arguments whose full SELECT result is `rows`. -/
def stream_sensor_data (rows : List Row) (batch_size : Nat) : List (List Row) :=
  stream_go rows batch_size 0 (rows.length + 1)

/-- An IEEE-754 double as Python sees it: a finite value (an exact
rational — every finite double is one, and the constants -20, 60, 0, 100
compared against are exactly representable), positive or negative
infinity, or NaN. -/
inductive PyFloat where
  | finite : Rat → PyFloat
  | inf : PyFloat
  | ninf : PyFloat
  | nan : PyFloat

/-- IEEE comparison `a < b` as Python evaluates it on floats: every
comparison against NaN is false; the infinities bound the finite values. -/
def pfLt : PyFloat → PyFloat → Bool
  | .nan, _ => false
  | _, .nan => false
  | .ninf, .ninf => false
  | .ninf, _ => true
  | _, .ninf => false
  | .inf, _ => false
  | _, .inf => true
  | .finite a, .finite b => decide (a < b)

/-- IEEE comparison `a <= b` on floats: false whenever either side is NaN. -/
def pfLe : PyFloat → PyFloat → Bool
  | .nan, _ => false
  | _, .nan => false
  | .ninf, _ => true
  | _, .ninf => false
  | _, .inf => true
  | .inf, _ => false
  | .finite a, .finite b => decide (a ≤ b)

/-- NaN test. -/
def pfIsNan : PyFloat → Bool
  | .nan => true
  | _ => false

/-- A Python value as it occurs in the sensor records fed to the phase
router: a number (int/float; ints convert exactly under `float`), a string
carrying the result `float(s)` would give (`some f` when the string parses
as a float — including the `nan`/`inf` spellings — and `none` when `float`
raises `ValueError`), `None`, or any other non-numeric object (dict,
list, ...; `float` raises `TypeError`). -/
inductive PyVal where
  | num : PyFloat → PyVal
  | str : Option PyFloat → String → PyVal
  | pynone : PyVal
  | dict : List (String × PyVal) → PyVal

/-- A Python dict record: association list of its keys in insertion order
(keys are unique). -/
abbrev Rec := List (String × PyVal)

/-- Python `record.get(key, default)`. -/
def pyGet (record : Rec) (key : String) (default : PyVal) : PyVal :=
  (record.lookup key).getD default

/-- Display of a value inside an f-string (`f"turbine_{...}"`).  Only the
string case is ever exercised by the claims; numeric display of
non-integral values is abbreviated. -/
def pyDisplay (v : PyVal) : String :=
  match v with
  | .num (.finite q) => if q.den = 1 then toString q.num else toString q
  | .num .inf => "inf"
  | .num .ninf => "-inf"
  | .num .nan => "nan"
  | .str _ s => s
  | .pynone => "None"
  | .dict _ => "dict"

/-- The coercion in `_mock_validate_record`:
`float(x) if x is not None else 0.0` wrapped in
`try ... except (ValueError, TypeError): 0.0`.  Parseable strings keep the
value `float` gives them — `"nan"` coerces to NaN, not to `0.0`. -/
def pyFloatCoerce (v : PyVal) : PyFloat :=
  match v with
  | .num f => f
  | .str p _ => p.getD (.finite 0)
  | .pynone => .finite 0
  | .dict _ => .finite 0

/-- Model of `MockUploader._mock_transform_to_turbine_schema`: the canonical-shape
record, keys in source order.  `phase` is `self.current_pipeline_type`. -/
def mock_transform_to_turbine_schema (phase : String) (record : Rec) : Rec :=
  [ ("timestamp", pyGet record "timestamp" .pynone),
    ("turbine_id", .str none ("turbine_" ++ pyDisplay (pyGet record "id" (.str none "001")))),
    ("site_id", .str none "test_site"),
    ("temperature", pyGet record "temperature" .pynone),
    ("humidity", pyGet record "humidity" .pynone),
    ("pressure", pyGet record "pressure" (.num (.finite (4053 / 4)))),
    ("wind_speed", .num (.finite 15)),
    ("power_output", .num (.finite 1500)),
    ("pipeline_metadata", .dict
      [ ("stage", .str none phase),
        ("processed_at", .str none "2024-01-15T10:30:00Z") ]) ]

/-- Model of `MockUploader._mock_validate_record`: coerce `temperature` and
`humidity` (default 0), then apply the strict-inequality rejection tests of
the code (`temp < -20 or temp > 60`, `humidity < 0 or humidity > 100`)
under IEEE comparison semantics — on NaN neither test fires. -/
def mock_validate_record (record : Rec) : Bool :=
  let temp := pyFloatCoerce (pyGet record "temperature" (.num (.finite 0)))
  let humidity := pyFloatCoerce (pyGet record "humidity" (.num (.finite 0)))
  if pfLt temp (.finite (-20)) || pfLt (.finite 60) temp then false
  else if pfLt humidity (.finite 0) || pfLt (.finite 100) humidity then false
  else true

/-- Model of `MockUploader._validate_and_split_data`: the per-record loop.  Each
record is appended to the valid or invalid list in input order; the
recursion prepends the outcome for the head record to the split of the tail,
which yields the same lists. -/
def validate_and_split_data (phase : String) : List Rec → List Rec × List Rec
  | [] => ([], [])
  | record :: rest =>
    let r := validate_and_split_data phase rest
    if phase = "raw" then (record :: r.1, r.2)
    else if phase = "schematized" then
      (mock_transform_to_turbine_schema phase record :: r.1, r.2)
    else if phase = "validated" then
      (if mock_validate_record (mock_transform_to_turbine_schema phase record)
       then (mock_transform_to_turbine_schema phase record :: r.1, r.2)
       else (r.1, mock_transform_to_turbine_schema phase record :: r.2))
    else if phase = "aggregated" then (record :: r.1, r.2)
    else if phase = "anomaly" then (record :: r.1, r.2)
    else (record :: r.1, r.2)

/-- The default-validation policy as the claim words it: coerced
`temperature` lies in `[-20, 60]` inclusive and coerced `humidity` lies in
`[0, 100]` inclusive (interval membership under IEEE comparisons, which a
NaN value never satisfies). -/
def spec_valid_record (record : Rec) : Bool :=
  let temp := pyFloatCoerce (pyGet record "temperature" (.num (.finite 0)))
  let humidity := pyFloatCoerce (pyGet record "humidity" (.num (.finite 0)))
  (pfLe (.finite (-20)) temp && pfLe temp (.finite 60))
    && (pfLe (.finite 0) humidity && pfLe humidity (.finite 100))

/-- The amended policy, as the code actually behaves: interval membership
OR NaN — a NaN coerced value fails both strict rejection tests and is
accepted as valid. -/
def spec_valid_or_nan_record (record : Rec) : Bool :=
  let temp := pyFloatCoerce (pyGet record "temperature" (.num (.finite 0)))
  let humidity := pyFloatCoerce (pyGet record "humidity" (.num (.finite 0)))
  ((pfLe (.finite (-20)) temp && pfLe temp (.finite 60)) || pfIsNan temp)
    && ((pfLe (.finite 0) humidity && pfLe humidity (.finite 100)) || pfIsNan humidity)

/-- Truncation to a 32-bit word. -/
def w32 (n : Nat) : Nat := n % 4294967296

/-- Right rotation of a 32-bit word `n < 2^32` by `k` bits. -/
def rotr32 (k n : Nat) : Nat := n / 2 ^ k + n % 2 ^ k * 2 ^ (32 - k)

/-- Logical right shift. -/
def shr32 (k n : Nat) : Nat := n / 2 ^ k

/-- Bitwise complement of a 32-bit word `n < 2^32`. -/
def bnot32 (n : Nat) : Nat := Nat.xor n 4294967295

/-- SHA-256 choice function. -/
def sha256Ch (e f g : Nat) : Nat := Nat.xor (Nat.land e f) (Nat.land (bnot32 e) g)

/-- SHA-256 majority function. -/
def sha256Maj (a b c : Nat) : Nat :=
  Nat.xor (Nat.xor (Nat.land a b) (Nat.land a c)) (Nat.land b c)

/-- SHA-256 big sigma 0. -/
def bigSigma0 (a : Nat) : Nat := Nat.xor (rotr32 2 a) (Nat.xor (rotr32 13 a) (rotr32 22 a))

/-- SHA-256 big sigma 1. -/
def bigSigma1 (e : Nat) : Nat := Nat.xor (rotr32 6 e) (Nat.xor (rotr32 11 e) (rotr32 25 e))

/-- SHA-256 small sigma 0. -/
def smallSigma0 (x : Nat) : Nat := Nat.xor (rotr32 7 x) (Nat.xor (rotr32 18 x) (shr32 3 x))

/-- SHA-256 small sigma 1. -/
def smallSigma1 (x : Nat) : Nat := Nat.xor (rotr32 17 x) (Nat.xor (rotr32 19 x) (shr32 10 x))

/-- The 64 SHA-256 round constants. -/
def sha256K : List Nat :=
  [ 1116352408, 1899447441, 3049323471, 3921009573,
    961987163, 1508970993, 2453635748, 2870763221,
    3624381080, 310598401, 607225278, 1426881987,
    1925078388, 2162078206, 2614888103, 3248222580,
    3835390401, 4022224774, 264347078, 604807628,
    770255983, 1249150122, 1555081692, 1996064986,
    2554220882, 2821834349, 2952996808, 3210313671,
    3336571891, 3584528711, 113926993, 338241895,
    666307205, 773529912, 1294757372, 1396182291,
    1695183700, 1986661051, 2177026350, 2456956037,
    2730485921, 2820302411, 3259730800, 3345764771,
    3516065817, 3600352804, 4094571909, 275423344,
    430227734, 506948616, 659060556, 883997877,
    958139571, 1322822218, 1537002063, 1747873779,
    1955562222, 2024104815, 2227730452, 2361852424,
    2428436474, 2756734187, 3204031479, 3329325298 ]

/-- SHA-256 padding of a byte message: append `0x80`, zeros to 56 mod 64,
then the bit length as 8 big-endian bytes. -/
def sha256Pad (msg : List Nat) : List Nat :=
  let L := msg.length
  let padZeros := (119 - L % 64) % 64
  msg ++ 128 :: List.replicate padZeros 0
      ++ [56, 48, 40, 32, 24, 16, 8, 0].map (fun s => 8 * L / 2 ^ s % 256)

/-- Big-endian grouping of bytes into 32-bit words. -/
def bytesToWords : List Nat → List Nat
  | b0 :: b1 :: b2 :: b3 :: rest =>
    (((b0 * 256 + b1) * 256 + b2) * 256 + b3) :: bytesToWords rest
  | _ => []

/-- Split a word list into 16-word (one-block) chunks. -/
def chunks16 : List Nat → List (List Nat)
  | [] => []
  | w :: ws => ((w :: ws).take 16) :: chunks16 ((w :: ws).drop 16)
termination_by l => l.length
decreasing_by simp; omega

/-- Extend a 16-word block schedule by `n` further words
(`w[t] = sigma1 w[t-2] + w[t-7] + sigma0 w[t-15] + w[t-16]`, mod 2^32). -/
def scheduleExtend (ws : List Nat) : Nat → List Nat
  | 0 => ws
  | n + 1 =>
    let t := ws.length
    scheduleExtend
      (ws ++ [w32 (smallSigma1 (ws.getD (t - 2) 0) + ws.getD (t - 7) 0
                    + smallSigma0 (ws.getD (t - 15) 0) + ws.getD (t - 16) 0)]) n

/-- The eight working registers / hash words. -/
structure Hash8 where
  a : Nat
  b : Nat
  c : Nat
  d : Nat
  e : Nat
  f : Nat
  g : Nat
  h : Nat

/-- SHA-256 initial hash value. -/
def sha256H0 : Hash8 :=
  ⟨1779033703, 3144134277, 1013904242, 2773480762,
   1359893119, 2600822924, 528734635, 1541459225⟩

/-- One SHA-256 round with round constant and schedule word `kw`. -/
def sha256Round (s : Hash8) (kw : Nat × Nat) : Hash8 :=
  let t1 := w32 (s.h + bigSigma1 s.e + sha256Ch s.e s.f s.g + kw.1 + kw.2)
  let t2 := w32 (bigSigma0 s.a + sha256Maj s.a s.b s.c)
  ⟨w32 (t1 + t2), s.a, s.b, s.c, w32 (s.d + t1), s.e, s.f, s.g⟩

/-- SHA-256 compression of one 16-word block into the running hash. -/
def sha256Block (H : Hash8) (block : List Nat) : Hash8 :=
  let ws := scheduleExtend block 48
  let s := (sha256K.zip ws).foldl sha256Round H
  ⟨w32 (H.a + s.a), w32 (H.b + s.b), w32 (H.c + s.c), w32 (H.d + s.d),
   w32 (H.e + s.e), w32 (H.f + s.f), w32 (H.g + s.g), w32 (H.h + s.h)⟩

/-- Lowercase hex digit. -/
def hexDigit (n : Nat) : Char :=
  Char.ofNat (if n < 10 then 48 + n else 87 + n)

/-- Eight-hex-digit rendering of a 32-bit word. -/
def wordHex (w : Nat) : String :=
  String.mk ([28, 24, 20, 16, 12, 8, 4, 0].map (fun s => hexDigit (w / 2 ^ s % 16)))

/-- Model of `hashlib.sha256(data).hexdigest()`. -/
def sha256Hexdigest (msg : List Nat) : String :=
  let H := (chunks16 (bytesToWords (sha256Pad msg))).foldl sha256Block sha256H0
  wordHex H.a ++ wordHex H.b ++ wordHex H.c ++ wordHex H.d
    ++ wordHex H.e ++ wordHex H.f ++ wordHex H.g ++ wordHex H.h

/-- UTF-8 bytes of a string (`str.encode()`). -/
def utf8Bytes (s : String) : List Nat := s.toUTF8.toList.map (fun b => b.toNat)

/-- Four-hex-digit rendering used in JSON `\uXXXX` escapes. -/
def hex4 (n : Nat) : String :=
  String.mk ([12, 8, 4, 0].map (fun s => hexDigit (n / 2 ^ s % 16)))

/-- Escaping by `json.dumps` of one character (default `ensure_ascii=True`):
quote, backslash, the named control escapes, `\uXXXX` for other control and
all non-ASCII characters, surrogate pairs beyond the basic plane. -/
def jsonEscapeChar (c : Char) : String :=
  if c = '"' then "\\\""
  else if c = '\\' then "\\\\"
  else if c = '\n' then "\\n"
  else if c = '\t' then "\\t"
  else if c = '\r' then "\\r"
  else if c.toNat = 8 then "\\b"
  else if c.toNat = 12 then "\\f"
  else if c.toNat < 32 then "\\u" ++ hex4 c.toNat
  else if c.toNat < 127 then String.singleton c
  else if c.toNat < 65536 then "\\u" ++ hex4 c.toNat
  else
    "\\u" ++ hex4 (55296 + (c.toNat - 65536) / 1024)
      ++ "\\u" ++ hex4 (56320 + (c.toNat - 65536) % 1024)

/-- Rendering by `json.dumps` of a string. -/
def jsonStr (s : String) : String :=
  "\"" ++ String.join (s.toList.map jsonEscapeChar) ++ "\""

/-- Rendering by `json.dumps` of a list of strings (default separator `", "`). -/
def jsonStrList (l : List String) : String :=
  "[" ++ String.intercalate ", " (l.map jsonStr) ++ "]"

/-- Code-point lexicographic order on character lists, the order the
Python `sorted` uses on `str`. -/
def charListLe : List Char → List Char → Bool
  | [], _ => true
  | _ :: _, [] => false
  | a :: as, b :: bs =>
    if a.toNat < b.toNat then true
    else if b.toNat < a.toNat then false
    else charListLe as bs

/-- Code-point lexicographic order on strings. -/
def strLe (s t : String) : Bool := charListLe s.toList t.toList

/-- Insertion into a sorted string list (code-point lexicographic order,
as the Python `sorted` on `str`). -/
def insertStr (s : String) : List String → List String
  | [] => [s]
  | t :: ts => if strLe s t then s :: t :: ts else t :: insertStr s ts

/-- Python `sorted` on strings. -/
def sortStrings (l : List String) : List String := l.foldr insertStr []

/-- Model of `get_pipeline_version`: the `PIPELINE_VERSION` environment variable
(an input to the model) or the default `"0.9.0"`. -/
def get_pipeline_version (env : Option String) : String := env.getD "0.9.0"

/-- The string `json.dumps(transformation_def, sort_keys=True)` for
`transformation_def = {"pipeline_type": ..., "version": ...,
"config_keys": sorted(config.keys())}`: with keys sorted, `config_keys`
comes first, then `pipeline_type`, then `version`. -/
def transformation_hash_input (version pipeline_type : String)
    (sorted_config_keys : List String) : String :=
  "\x7b\"config_keys\": " ++ jsonStrList sorted_config_keys
    ++ ", \"pipeline_type\": " ++ jsonStr pipeline_type
    ++ ", \"version\": " ++ jsonStr version ++ "\x7d"

/-- Model of `generate_transformation_hash` from `pipeline_metadata.py`: the SHA-256
hex digest of the serialized transformation definition.  The config dict
enters only through the sorted list of its keys (`sorted(config.keys())`);
its values (of arbitrary type `V`) are never read. -/
def generate_transformation_hash {V : Type} (env : Option String)
    (pipeline_type : String) (config : List (String × V)) : String :=
  sha256Hexdigest (utf8Bytes (transformation_hash_input
    (get_pipeline_version env) pipeline_type (sortStrings (config.map Prod.fst))))

/-- C7: the transformation hash is a function only of the phase, the
pipeline version, and the sorted list of configuration key names: two
configuration dictionaries with the same key set (their values of
arbitrary, even different, types) hash identically for the same phase and
version, so no configuration value influences the hash. -/
theorem C7_hash_ignores_config_values {V W : Type} (env : Option String)
    (pipeline_type : String) (c1 : List (String × V)) (c2 : List (String × W))
    (h : sortStrings (c1.map Prod.fst) = sortStrings (c2.map Prod.fst)) :
    generate_transformation_hash env pipeline_type c1
      = generate_transformation_hash env pipeline_type c2 := by
  unfold generate_transformation_hash
  rw [h]

/-- Witness for C7: two concrete configs with the same keys but different
values (of different types) produce the same hash. -/
theorem C7_hash_ignores_config_values_witness :
    sortStrings ((([("schema_url", "https://example.com/schema.json"),
        ("api_token", "secret-value-1")] : List (String × String)).map Prod.fst))
      = sortStrings ((([("api_token", (0 : Nat)),
        ("schema_url", 42)] : List (String × Nat)).map Prod.fst))
    ∧ generate_transformation_hash none "validated"
        [("schema_url", "https://example.com/schema.json"), ("api_token", "secret-value-1")]
      = generate_transformation_hash none "validated"
        [("api_token", (0 : Nat)), ("schema_url", 42)] :=
  ⟨by decide, C7_hash_ignores_config_values none "validated" _ _ (by decide)⟩

/-- C10: passing `limit = 0` and `offset = 0` to `read_sensor_data` is
identical to omitting the arguments: the built query carries no LIMIT or
OFFSET fragment, and the call returns every row of the result rather than
zero rows. -/
theorem C10_zero_limit_offset_omitted (table_name : String)
    (where_clause order_by : Option String) (rows : List Row) :
    buildReadQuery table_name where_clause order_by (some 0) (some 0)
      = buildReadQuery table_name where_clause order_by none none
    ∧ limitClause (some 0) = "" ∧ offsetClause (some 0) = ""
    ∧ read_sensor_data rows (some 0) (some 0) = rows
    ∧ read_sensor_data rows none none = rows :=
  ⟨rfl, rfl, rfl, rfl, rfl⟩

/-- C5 counterexample: the claim says every query whose leading keyword is
not SELECT is rejected, but the code checks only the six-character prefix:
the query "SELECTION FROM t" has leading keyword SELECTION, yet
`read_with_query` does not reject it (it runs it against the engine). -/
theorem C5_keyword_check_counterexample :
    specLeadingKeyword "SELECTION FROM t" ≠ "SELECT"
    ∧ read_with_query "SELECTION FROM t" (fun _ => []) = .ok [] :=
  ⟨by decide, rfl⟩

/-- C5 amended: `read_with_query` raises the ValidationError, before any
execution against the database (the result on the rejection path is
independent of the engine `exec`), exactly when the whitespace-stripped,
uppercased query text does not begin with the prefix "SELECT" — a prefix
check, not a leading-keyword check. -/
theorem C5_rejects_iff_not_select_start (query : String)
    (exec : String → List Row) :
    read_with_query query exec = .error .validationError
      ↔ pyStartsWith (pyUpper (pyStrip query)) "SELECT" = false := by
  unfold read_with_query readWithQueryAllows
  cases h : pyStartsWith (pyUpper (pyStrip query)) "SELECT" <;> simp [h]

/-- C8 counterexample: constructing the sensor reader with a path that
refers to the state database (the file exists) does not fail with a
ConfigurationError — it succeeds, because `SensorDatabaseReader.__init__`
only checks existence. -/
theorem C8_counterexample_reader_accepts_state_db :
    sensor_reader_construct "/data/pipeline_config.db" true
      = .ok "file:/data/pipeline_config.db?mode=ro" := rfl

/-- C8 amended: the guard is one-sided.  Constructing the phase state
store with a path that refers to the sensor database (its lowercased form
contains "sensor_data") fails with a ConfigurationError before any
database access; the sensor reader has no reciprocal check and can never
fail with a ConfigurationError (its only construction failure is NotFound
for a missing file). -/
theorem C8_one_sided_configuration_guard :
    (∀ path now st, strContainsSub (pyLower path) "sensor_data" = true →
        pipeline_controller_construct path now st = .error .configurationError)
    ∧ (∀ path pathExists,
        sensor_reader_construct path pathExists ≠ .error .configurationError) := by
  constructor
  · intro path now st h
    unfold pipeline_controller_construct
    rw [h]
    rfl
  · intro path pathExists
    unfold sensor_reader_construct
    cases pathExists <;> simp

/-- Witness for C8 amended: a concrete state-store path containing
SENSOR_DATA is refused with a ConfigurationError. -/
theorem C8_one_sided_configuration_guard_witness :
    strContainsSub (pyLower "/tmp/SENSOR_DATA.db") "sensor_data" = true
    ∧ pipeline_controller_construct "/tmp/SENSOR_DATA.db" "2024-01-01" []
        = .error .configurationError :=
  ⟨by decide,
   C8_one_sided_configuration_guard.1 "/tmp/SENSOR_DATA.db" "2024-01-01" [] (by decide)⟩

/-- Passing both strict rejection tests for one value under IEEE
comparisons is inclusive interval membership OR being NaN: NaN fails every
comparison, so neither rejection test fires on it. -/
theorem strict_tests_pass_iff_range_or_nan (lo hi : Rat) (x : PyFloat) :
    (!(pfLt x (.finite lo) || pfLt (.finite hi) x))
      = ((pfLe (.finite lo) x && pfLe x (.finite hi)) || pfIsNan x) := by
  cases x with
  | nan => rfl
  | inf => rfl
  | ninf => rfl
  | finite q =>
    simp only [pfLt, pfLe, pfIsNan, Bool.or_false]
    by_cases h1 : q < lo <;> by_cases h2 : hi < q <;>
      simp_all [not_lt, le_of_lt]

/-- The two-test sequencing of the validator equals the conjunction of the
per-value amended policies, for arbitrary coerced values. -/
theorem strict_tests_if_eq (a b : PyFloat) :
    (if pfLt a (.finite (-20)) || pfLt (.finite 60) a then false
     else if pfLt b (.finite 0) || pfLt (.finite 100) b then false else true)
      = ((pfLe (.finite (-20)) a && pfLe a (.finite 60) || pfIsNan a)
          && (pfLe (.finite 0) b && pfLe b (.finite 100) || pfIsNan b)) := by
  rw [← strict_tests_pass_iff_range_or_nan (-20) 60 a,
    ← strict_tests_pass_iff_range_or_nan 0 100 b]
  cases h1 : pfLt a (.finite (-20)) || pfLt (.finite 60) a <;>
    cases h2 : pfLt b (.finite 0) || pfLt (.finite 100) b <;>
    simp [h1, h2]

/-- The mock validator decides exactly the amended policy — inclusive
ranges with NaN accepted — on every record. -/
theorem mock_validate_eq_range_or_nan (record : Rec) :
    mock_validate_record record = spec_valid_or_nan_record record :=
  strict_tests_if_eq _ _

/-- C2 counterexample: a record whose temperature is `float("nan")` is
placed in the VALID list by the validated phase — NaN fails neither strict
rejection test — although its coerced temperature does not lie in
[-20, 60] inclusive, refuting the claimed if-and-only-if. -/
theorem C2_counterexample_nan_passes_validation :
    validate_and_split_data "validated" [[("temperature", PyVal.num .nan)]]
      = ([mock_transform_to_turbine_schema "validated"
            [("temperature", PyVal.num .nan)]], [])
    ∧ spec_valid_record (mock_transform_to_turbine_schema "validated"
        [("temperature", PyVal.num .nan)]) = false :=
  ⟨rfl, rfl⟩

/-- C2 amended: in the validated phase with no external validator, the
router places the transformed record of each input in the valid list
exactly when each of its coerced temperature and humidity lies in the
inclusive range ([-20, 60] resp. [0, 100]) OR is NaN — NaN passes because
the strict-inequality tests of the code never fire on it; a missing, None,
or unparseable value coerces to 0.0 and passes (a record missing both
fields is valid); the records failing the check land in the invalid list,
order preserved. -/
theorem C2_validated_splits_by_ranges_or_nan (data : List Rec) :
    validate_and_split_data "validated" data
      = ((data.map (mock_transform_to_turbine_schema "validated")).filter
           spec_valid_or_nan_record,
         (data.map (mock_transform_to_turbine_schema "validated")).filter
           (fun t => !spec_valid_or_nan_record t)) := by
  induction data with
  | nil => rfl
  | cons record rest ih =>
    simp only [validate_and_split_data, List.map_cons, List.filter_cons, ih,
      mock_validate_eq_range_or_nan]
    cases h : spec_valid_or_nan_record
        (mock_transform_to_turbine_schema "validated" record) <;>
      simp [h]

/-- C4: the phases raw, aggregated and anomaly, and every phase name other
than schematized and validated, are identity with respect to validity: the
invalid list is empty and the valid list is the input batch itself, same
records, same order — unknown phases never discard data. -/
theorem C4_passthrough_phases_identity (phase : String) (data : List Rec)
    (h1 : phase ≠ "schematized") (h2 : phase ≠ "validated") :
    validate_and_split_data phase data = (data, []) := by
  induction data with
  | nil => rfl
  | cons record rest ih =>
    simp only [validate_and_split_data, ih]
    split_ifs <;> simp_all

/-- Witness for C4: the raw phase passes a concrete batch through
untouched, and so does an unknown phase name. -/
theorem C4_passthrough_phases_identity_witness :
    (("raw" : String) ≠ "schematized") ∧ (("raw" : String) ≠ "validated")
    ∧ validate_and_split_data "raw"
        [[("id", PyVal.num (.finite 1))], [("temperature", PyVal.num (.finite 999))]]
      = ([[("id", PyVal.num (.finite 1))], [("temperature", PyVal.num (.finite 999))]], [])
    ∧ (("unknown_type" : String) ≠ "schematized")
    ∧ (("unknown_type" : String) ≠ "validated")
    ∧ validate_and_split_data "unknown_type" [[("humidity", PyVal.pynone)]]
      = ([[("humidity", PyVal.pynone)]], []) :=
  ⟨by decide, by decide,
   C4_passthrough_phases_identity "raw" _ (by decide) (by decide),
   by decide, by decide,
   C4_passthrough_phases_identity "unknown_type" _ (by decide) (by decide)⟩

/-- Counting active rows distributes over list append. -/
theorem countActive_append (s t : DBState) :
    countActive (s ++ t) = countActive s + countActive t := by
  simp [countActive, List.filter_append]

/-- Counting active rows over a cons. -/
theorem countActive_cons (r : ConfigRow) (st : DBState) :
    countActive (r :: st) = (if r.is_active then 1 else 0) + countActive st := by
  cases h : r.is_active <;> simp [countActive, List.filter_cons, h, Nat.add_comm]

/-- Deactivating every row and appending one active row leaves exactly one
active row, whatever the starting table was. -/
theorem countActive_deact_append (row : ConfigRow) (hrow : row.is_active = true)
    (st : DBState) :
    countActive
      (st.map (fun r => if r.is_active then { r with is_active := false } else r)
        ++ [row]) = 1 := by
  induction st with
  | nil => simp [countActive, List.filter_cons, hrow]
  | cons r rest ih =>
    have hfr : (if r.is_active then { r with is_active := false } else r).is_active
        = false := by
      cases h : r.is_active <;> simp [h]
    simp [List.map_cons, List.cons_append, countActive_cons, hfr, ih]

/-- The committed transaction of `set_pipeline` always leaves exactly one
active row. -/
theorem countActive_tx (pt : String) (cb reason : Option String) (now : String)
    (st : DBState) :
    countActive (set_pipeline_tx pt cb reason now st) = 1 :=
  countActive_deact_append _ rfl st

/-- The retry loop of `set_pipeline` either leaves the table untouched (on
any failure path, lock contention included) or commits its transaction
exactly once, against the state it started from. -/
theorem set_pipeline_from_state (eff : Nat → Attempt) (pt : String)
    (cb reason : Option String) (now : String) :
    ∀ k attempt st, maxRetries - attempt ≤ k →
      (set_pipeline_from eff pt cb reason now attempt st).2.1 = st ∨
      (set_pipeline_from eff pt cb reason now attempt st).2.1
        = set_pipeline_tx pt cb reason now st := by
  intro k
  induction k with
  | zero =>
    intro attempt st h
    have h5 : maxRetries = 5 := rfl
    unfold set_pipeline_from
    cases heff : eff attempt with
    | ok => right; rfl
    | lockedErr => rw [dif_neg (by omega)]; left; rfl
    | otherErr => left; rfl
  | succ k ih =>
    intro attempt st h
    unfold set_pipeline_from
    cases heff : eff attempt with
    | ok => right; rfl
    | lockedErr =>
      by_cases hc : attempt + 1 < maxRetries
      · rw [dif_pos hc]
        exact ih (attempt + 1) st (by omega)
      · rw [dif_neg hc]; left; rfl
    | otherErr => left; rfl

/-- C1: starting from an initialized (empty) phase state store, after any
sequence of `set_pipeline` calls — each deactivating every active row and
inserting one new active row in a single committed transaction, with
failed calls leaving the table untouched — exactly one row of
`pipeline_config` has `is_active = true`; no reachable state has two
simultaneously active rows. -/
theorem C1_single_active_row_invariant (now : String) (calls : List SetCall) :
    countActive (calls.foldl applySetCall (init_database now [])) = 1 := by
  have base : countActive (init_database now []) = 1 := rfl
  suffices inv : ∀ cs : List SetCall, ∀ st, countActive st = 1 →
      countActive (cs.foldl applySetCall st) = 1 from inv calls _ base
  intro cs
  induction cs with
  | nil => intro st h; exact h
  | cons c rest ih =>
    intro st h
    simp only [List.foldl_cons]
    apply ih
    unfold applySetCall set_pipeline
    rcases set_pipeline_from_state c.eff c.pt c.cb c.reason c.now maxRetries 0 st
        (by omega) with h2 | h2
    · rw [h2]; exact h
    · rw [h2]; exact countActive_tx _ _ _ _ _

/-- C3: under lock contention `set_pipeline` retries with exponential
backoff — at most `max_retries = 5` attempts, sleeping `0.1 * 2 ^ attempt`
seconds between them — and when every attempt hits contention it fails
with the StoreUnavailable error, the table untouched, rather than silently
dropping the write; an error other than lock contention, at any attempt,
propagates immediately with no further sleep or retry. -/
theorem C3_retry_backoff_and_error_propagation (eff : Nat → Attempt)
    (pt : String) (cb reason : Option String) (now : String) (st : DBState) :
    ((∀ i, i < maxRetries → eff i = .lockedErr) →
       set_pipeline eff pt cb reason now st
         = (.error .storeUnavailable, st,
            (List.range (maxRetries - 1)).map (fun i => retryDelay * 2 ^ i)))
    ∧ (∀ attempt, eff attempt = .otherErr →
        set_pipeline_from eff pt cb reason now attempt st
          = (.error .otherError, st, [])) := by
  constructor
  · intro hall
    have e0 := hall 0 (by decide)
    have e1 := hall 1 (by decide)
    have e2 := hall 2 (by decide)
    have e3 := hall 3 (by decide)
    have e4 := hall 4 (by decide)
    unfold set_pipeline
    unfold set_pipeline_from
    rw [e0, dif_pos (by decide)]
    unfold set_pipeline_from
    rw [e1, dif_pos (by decide)]
    unfold set_pipeline_from
    rw [e2, dif_pos (by decide)]
    unfold set_pipeline_from
    rw [e3, dif_pos (by decide)]
    unfold set_pipeline_from
    rw [e4, dif_neg (by decide)]
    simp only [Prod.mk.injEq, true_and]
    norm_num [maxRetries, retryDelay, List.range_succ]
  · intro attempt ha
    unfold set_pipeline_from
    rw [ha]

/-- Witness for C3: with every attempt locked, the concrete call fails
with StoreUnavailable after sleeps [0.1, 0.2, 0.4, 0.8]; with an
immediate non-lock error, it fails at once with no sleeps. -/
theorem C3_retry_backoff_witness :
    (∀ i, i < maxRetries → (fun _ => Attempt.lockedErr) i = .lockedErr)
    ∧ set_pipeline (fun _ => Attempt.lockedErr) "validated" none none "t0" []
        = (.error .storeUnavailable, [],
           (List.range (maxRetries - 1)).map (fun i => retryDelay * 2 ^ i))
    ∧ ((fun _ => Attempt.otherErr) 0 = .otherErr)
    ∧ set_pipeline_from (fun _ => Attempt.otherErr) "validated" none none "t0" 0 []
        = (.error .otherError, [], []) :=
  ⟨fun _ _ => rfl,
   (C3_retry_backoff_and_error_propagation _ "validated" none none "t0" []).1
     (fun _ _ => rfl),
   rfl,
   (C3_retry_backoff_and_error_propagation _ "validated" none none "t0" []).2 0 rfl⟩

/-- With no active row, the current-row SELECT returns nothing. -/
theorem selectCurrent_of_no_active (st : DBState) (h : countActive st = 0) :
    selectCurrent st = none := by
  unfold selectCurrent
  unfold countActive at h
  rw [List.length_eq_zero] at h
  rw [h]
  rfl

/-- The retry loop of `get_current_pipeline` returns the table state it
was given, on every path (success, retries, exhausted budget, other
errors), and when no active row exists its successful result can only be
the in-memory default configuration. -/
theorem get_current_from_frame (eff : Nat → Attempt) (now : String) (st : DBState) :
    ∀ k attempt, maxRetries - attempt ≤ k →
      (get_current_from eff now st attempt).2 = st ∧
      (countActive st = 0 → ∀ cfg,
        (get_current_from eff now st attempt).1 = .ok cfg →
        cfg = defaultCurrentConfig now) := by
  intro k
  induction k with
  | zero =>
    intro attempt h
    have h5 : maxRetries = 5 := rfl
    unfold get_current_from
    cases heff : eff attempt with
    | ok =>
      refine ⟨?_, ?_⟩
      · cases hsel : selectCurrent st <;> rfl
      · intro h0 cfg hcfg
        rw [selectCurrent_of_no_active st h0] at hcfg
        cases hcfg
        rfl
    | lockedErr =>
      rw [dif_neg (by omega)]
      exact ⟨rfl, fun _ cfg hcfg => by cases hcfg⟩
    | otherErr => exact ⟨rfl, fun _ cfg hcfg => by cases hcfg⟩
  | succ k ih =>
    intro attempt h
    unfold get_current_from
    cases heff : eff attempt with
    | ok =>
      refine ⟨?_, ?_⟩
      · cases hsel : selectCurrent st <;> rfl
      · intro h0 cfg hcfg
        rw [selectCurrent_of_no_active st h0] at hcfg
        cases hcfg
        rfl
    | lockedErr =>
      by_cases hc : attempt + 1 < maxRetries
      · rw [dif_pos hc]
        exact ih (attempt + 1) (by omega)
      · rw [dif_neg hc]
        exact ⟨rfl, fun _ cfg hcfg => by cases hcfg⟩
    | otherErr => exact ⟨rfl, fun _ cfg hcfg => by cases hcfg⟩

/-- C9: `get_current_pipeline` never modifies the configuration database —
the table state after the call equals the state before it on every path,
retry and error paths included — and when no active row exists, any value
it successfully returns is the in-memory default record (phase raw, actor
system), which is never inserted. -/
theorem C9_get_current_pipeline_read_only (eff : Nat → Attempt) (now : String)
    (st : DBState) :
    (get_current_pipeline eff now st).2 = st ∧
    (countActive st = 0 → ∀ cfg,
      (get_current_pipeline eff now st).1 = .ok cfg →
      cfg = defaultCurrentConfig now) :=
  get_current_from_frame eff now st maxRetries 0 (by omega)

/-- Witness for C9: on a concrete empty table with a first attempt that
succeeds, the state is returned unchanged and the default record comes
back without being inserted. -/
theorem C9_get_current_pipeline_read_only_witness :
    (get_current_pipeline (fun _ => Attempt.ok) "t0" []).2 = []
    ∧ countActive [] = 0
    ∧ (get_current_pipeline (fun _ => Attempt.ok) "t0" []).1
        = .ok (defaultCurrentConfig "t0")
    ∧ defaultCurrentConfig "t0" = defaultCurrentConfig "t0" := by
  have hrun : get_current_pipeline (fun _ => Attempt.ok) "t0" []
      = (.ok (defaultCurrentConfig "t0"), []) := by
    unfold get_current_pipeline get_current_from
    rfl
  refine ⟨(C9_get_current_pipeline_read_only (fun _ => Attempt.ok) "t0" []).1,
    rfl, by rw [hrun],
    (C9_get_current_pipeline_read_only (fun _ => Attempt.ok) "t0" []).2 rfl
      (defaultCurrentConfig "t0") (by rw [hrun])⟩

/-- With a positive limit, one paginated read is take-after-drop on the
full ordered result. -/
theorem read_sensor_data_take_drop (rows : List Row) (b off : Nat) (hb : b ≠ 0) :
    read_sensor_data rows (some b) (some off) = (rows.drop off).take b := by
  unfold read_sensor_data pyTruthyNat
  by_cases hoff : off = 0
  · subst hoff
    simp [hb]
  · simp [hb, hoff]

/-- Joining the batches the stream loop yields from `off` onward
reconstructs the ordered result from `off` onward, for any positive batch
size and sufficient fuel. -/
theorem stream_go_join (rows : List Row) (b : Nat) (hb : 0 < b) :
    ∀ fuel off, rows.length - off < fuel →
      (stream_go rows b off fuel).flatten = rows.drop off := by
  intro fuel
  induction fuel with
  | zero => intro off h; exact absurd h (Nat.not_lt_zero _)
  | succ fuel ih =>
    intro off h
    simp only [stream_go]
    rw [read_sensor_data_take_drop rows b off (by omega)]
    by_cases he : ((rows.drop off).take b).isEmpty
    · rw [if_pos he]
      rw [List.isEmpty_iff] at he
      rcases List.take_eq_nil_iff.mp he with hb0 | hdrop
      · omega
      · rw [hdrop]
        rfl
    · rw [if_neg he]
      by_cases hlt : ((rows.drop off).take b).length < b
      · rw [if_pos hlt]
        have hlen : (rows.drop off).length < b := by
          rw [List.length_take] at hlt
          omega
        simp [List.take_of_length_le (Nat.le_of_lt hlen)]
      · rw [if_neg hlt]
        have hge : b ≤ (rows.drop off).length := by
          rw [List.length_take] at hlt
          omega
        have hdl : (rows.drop off).length = rows.length - off := List.length_drop off rows
        rw [List.flatten_cons, ih (off + b) (by omega)]
        have hdd : rows.drop (off + b) = (rows.drop off).drop b := by
          rw [List.drop_drop, Nat.add_comm]
        rw [hdd, List.take_append_drop]

/-- C6: streaming advances the offset by `batch_size` per read and stops on
an empty or short batch; concatenating every yielded batch equals the
single unpaginated read over the same table, WHERE and ORDER BY arguments
(the shared ordered result `rows`), and over a 5-row result with
`batch_size = 2` it yields exactly 3 batches of sizes [2, 2, 1]. -/
theorem C6_stream_batches_eq_unpaginated_read (rows : List Row) (batch_size : Nat)
    (hb : 0 < batch_size) :
    (stream_sensor_data rows batch_size).flatten = read_sensor_data rows none none
    ∧ (rows.length = 5 → batch_size = 2 →
        (stream_sensor_data rows batch_size).map List.length = [2, 2, 1]) := by
  constructor
  · unfold stream_sensor_data
    rw [stream_go_join rows batch_size hb (rows.length + 1) 0 (by omega)]
    rfl
  · intro h5 hb2
    subst hb2
    rcases rows with _ | ⟨r1, _ | ⟨r2, _ | ⟨r3, _ | ⟨r4, _ | ⟨r5, _ | ⟨r6, rest⟩⟩⟩⟩⟩⟩ <;>
      simp_all
    rfl

/-- Witness for C6: a concrete 5-row result with batch size 2 yields
batches of sizes [2, 2, 1] whose concatenation is the unpaginated read. -/
theorem C6_stream_batches_witness :
    0 < 2
    ∧ (stream_sensor_data
        [[("id", "1")], [("id", "2")], [("id", "3")], [("id", "4")], [("id", "5")]]
        2).flatten
      = read_sensor_data
          [[("id", "1")], [("id", "2")], [("id", "3")], [("id", "4")], [("id", "5")]]
          none none
    ∧ ([[("id", "1")], [("id", "2")], [("id", "3")], [("id", "4")], [("id", "5")]]
        : List Row).length = 5
    ∧ (stream_sensor_data
        [[("id", "1")], [("id", "2")], [("id", "3")], [("id", "4")], [("id", "5")]]
        2).map List.length = [2, 2, 1] :=
  ⟨by decide,
   (C6_stream_batches_eq_unpaginated_read _ 2 (by decide)).1,
   by decide,
   (C6_stream_batches_eq_unpaginated_read _ 2 (by decide)).2 (by decide) rfl⟩
